import Mathlib

/-!
Verification of the role-based business-management dashboard.

The development shallowly embeds:
* the row-level-security (RLS) policies of the SQL schema
  (`Users can view clients/proposals/sales in their scope`);
* the `Dashboard` component (primary-role resolution by minimum `level`,
  role-name dispatch, the `No Role Assigned` short-circuit and the
  per-dashboard statistics queries);
* the `AuthContext` module (`useAuth`, `AuthProvider` session restore,
  `login`, `logout`).

Identifiers (`uuid` columns) are embedded as `Nat`, role names and other
text columns as `String`, and `integer`/`decimal` columns as `Int`.
Nullable SQL columns are embedded as `Option`; SQL equality on nullable
columns is the `nullEq` predicate below (comparison with `NULL` is never
satisfied). Remote-query transport failures appear as `Except` values.
-/

namespace VoFullstuch

/-! ## Data model (`src/types/auth.ts` and the SQL schema) -/

/-- `roles` row: `name text`, `level integer` (`Role` in `auth.ts`). -/
structure Role where
  id : Nat
  name : String
  description : Option String
  level : Int
deriving Repr, DecidableEq

/-- `Company` record (`auth.ts`). -/
structure Company where
  id : Nat
  name : String
  is_active : Bool
deriving Repr, DecidableEq

/-- `Site` record (`auth.ts`): belongs to one company. -/
structure Site where
  id : Nat
  company_id : Nat
  name : String
  is_active : Bool
deriving Repr, DecidableEq

/-- `UserRole` record (`auth.ts`): one assignment joined with its role and
optional company/site, as produced by the login role query. -/
structure UserRole where
  id : Nat
  role : Role
  company : Option Company
  site : Option Site
  is_active : Bool
deriving Repr, DecidableEq

/-- Session `User` record (`auth.ts`): identity fields plus the joined
active assignments. -/
structure SessionUser where
  id : Nat
  email : String
  first_name : String
  last_name : String
  phone : Option String
  is_active : Bool
  roles : List UserRole
deriving Repr, DecidableEq

/-! ## Primary-role resolution (`Dashboard.tsx`, lines 23-26)

```js
const primaryRole = user.roles.reduce((highest, current) =>
  current.role.level < highest.role.level ? current : highest
);
```

JavaScript `Array.prototype.reduce` with no initial value folds the tail
of the array with the head as the accumulator. -/

/-- One `reduce` step: keep the strictly lower level, the accumulator on a
tie. -/
def primaryStep (highest current : UserRole) : UserRole :=
  if current.role.level < highest.role.level then current else highest

/-- The fold of `primaryStep` over the tail with the head as accumulator. -/
def primaryAux (a : UserRole) (l : List UserRole) : UserRole :=
  l.foldl primaryStep a

/-- `user.roles.reduce(...)` for a non-empty list of assignments. -/
def primaryRole (r : UserRole) (rs : List UserRole) : UserRole :=
  primaryAux r rs

/-- Minimum of the levels of `l`, seeded with `a`. -/
def minLevel (a : Int) (l : List UserRole) : Int :=
  l.foldl (fun m x => min m x.role.level) a

/-! ## Role-name dispatch (`Dashboard.tsx`, `renderDashboard`) -/

/-- Outcome of `renderDashboard`: one of the four role dashboards, or the
`Unknown Role` fallback of the `default` switch arm. -/
inductive DashView where
  | superAdmin
  | companyAdmin (userRole : UserRole)
  | siteManager (userRole : UserRole)
  | commercial (userRole : UserRole)
  | unknownRole (name : String)
deriving Repr, DecidableEq

/-- `switch (primaryRole.role.name) { ... }` in `Dashboard.tsx`. -/
def renderDashboard (p : UserRole) : DashView :=
  if p.role.name = "Super Admin" then .superAdmin
  else if p.role.name = "Company Admin" then .companyAdmin p
  else if p.role.name = "Site Manager" then .siteManager p
  else if p.role.name = "Commercial" then .commercial p
  else .unknownRole p.role.name

/-- Result of rendering `Dashboard`: either the `No Role Assigned` screen
(`!user || !user.roles.length`) or a page around a `DashView`. -/
inductive RenderResult where
  | noRoleAssigned
  | page (view : DashView)
deriving Repr, DecidableEq

/-- The `Dashboard` component over the session user. -/
def dashboard (user : Option SessionUser) : RenderResult :=
  match user with
  | none => .noRoleAssigned
  | some u =>
    match u.roles with
    | [] => .noRoleAssigned
    | r :: rs => .page (renderDashboard (primaryRole r rs))

/-- Tables queried by the initial statistics fetch of each dashboard
component.  `CompanyAdminDashboard` fetches only when `userRole.company`
is set, `SiteManagerDashboard` only when `userRole.site` is set; the
`Unknown Role` arm renders static text and queries nothing. -/
def viewQueries (v : DashView) : List String :=
  match v with
  | .superAdmin =>
    ["users", "companies", "sites", "sales", "proposals", "activity_logs"]
  | .companyAdmin ur =>
    match ur.company with
    | some _ =>
      ["user_roles", "sites", "sales", "proposals", "activity_logs", "sites"]
    | none => []
  | .siteManager ur =>
    match ur.site with
    | some _ =>
      ["user_roles", "sales", "proposals", "activity_logs", "user_roles"]
    | none => []
  | .commercial _ => ["sales", "proposals", "clients"]
  | .unknownRole _ => []

/-- All data queries issued by rendering `Dashboard` for a session user. -/
def dashboardQueries (user : Option SessionUser) : List String :=
  match dashboard user with
  | .noRoleAssigned => []
  | .page v => viewQueries v

/-! ## `useAuth` (`AuthContext.tsx`) -/

/-- The context value provided by `AuthProvider` (login/logout closures
are elided; the session fields are carried). -/
structure AuthContextType where
  user : Option SessionUser
  loading : Bool
deriving Repr, DecidableEq

/-- `useAuth()` over the surrounding context value (`undefined` outside a
provider is `none`). -/
def useAuth (context : Option AuthContextType) : Except String AuthContextType :=
  match context with
  | none => .error "useAuth must be used within an AuthProvider"
  | some c => .ok c

/-! ## JSON values and parsing

`AuthProvider` restores the session with `JSON.parse(storedUser)` and no
surrounding `try`/`catch`; malformed content therefore throws. -/

/-- A JavaScript JSON value. -/
inductive Json where
  | null
  | bool (b : Bool)
  | num (n : Int)
  | str (s : String)
  | arr (elems : List Json)
  | obj (fields : List (String × Json))
deriving Repr

/-- JSON whitespace. -/
def isWs (c : Char) : Bool :=
  c = ' ' || c = '\t' || c = '\n' || c = '\r'

/-- Drop leading JSON whitespace. -/
def skipWs : List Char → List Char
  | [] => []
  | c :: cs => if isWs c then skipWs cs else c :: cs

/-- Read a string body after the opening quote, up to the closing quote,
resolving the common escapes. -/
def parseStringBody : List Char → Option (List Char × List Char)
  | [] => none
  | '"' :: rest => some ([], rest)
  | '\\' :: e :: rest =>
    match
      (if e = '"' then some '"'
       else if e = '\\' then some '\\'
       else if e = '/' then some '/'
       else if e = 'n' then some '\n'
       else if e = 't' then some '\t'
       else if e = 'r' then some '\r'
       else none),
      parseStringBody rest with
    | some c, some (body, rem) => some (c :: body, rem)
    | _, _ => none
  | '\\' :: [] => none
  | c :: rest =>
    match parseStringBody rest with
    | some (body, rem) => some (c :: body, rem)
    | none => none

/-- Accumulate decimal digits. -/
def parseDigitsAux : List Char → Nat → Nat × List Char
  | [], acc => (acc, [])
  | c :: cs, acc =>
    if c.isDigit then parseDigitsAux cs (acc * 10 + (c.toNat - '0'.toNat))
    else (acc, c :: cs)

/-- Drop a literal keyword prefix. -/
def dropLit : List Char → List Char → Option (List Char)
  | [], cs => some cs
  | _ :: _, [] => none
  | p :: ps, c :: cs => if p = c then dropLit ps cs else none

mutual

/-- Modelled from the spec: the platform `JSON.parse` primitive (session
storage and serialization are delegated externals), restricted to integer
numerals.  Parse one JSON value; `none` models a thrown `SyntaxError`. -/
def parseValue : Nat → List Char → Option (Json × List Char)
  | 0, _ => none
  | fuel + 1, cs =>
    let s := skipWs cs
    match dropLit ['n', 'u', 'l', 'l'] s with
    | some rest => some (.null, rest)
    | none =>
    match dropLit ['t', 'r', 'u', 'e'] s with
    | some rest => some (.bool true, rest)
    | none =>
    match dropLit ['f', 'a', 'l', 's', 'e'] s with
    | some rest => some (.bool false, rest)
    | none =>
    match s with
    | '"' :: rest =>
      match parseStringBody rest with
      | some (body, rem) => some (.str (String.mk body), rem)
      | none => none
    | '[' :: rest =>
      (match skipWs rest with
       | ']' :: rem => some (.arr [], rem)
       | rest' =>
         match parseElems fuel rest' with
         | some (xs, rem) => some (.arr xs, rem)
         | none => none)
    | '\x7b' :: rest =>
      (match skipWs rest with
       | '\x7d' :: rem => some (.obj [], rem)
       | rest' =>
         match parseFields fuel rest' with
         | some (fs, rem) => some (.obj fs, rem)
         | none => none)
    | '-' :: c :: rest =>
      if c.isDigit then
        match parseDigitsAux (c :: rest) 0 with
        | (n, rem) => some (.num (-(n : Int)), rem)
      else none
    | c :: rest =>
      if c.isDigit then
        match parseDigitsAux (c :: rest) 0 with
        | (n, rem) => some (.num (n : Int), rem)
      else none
    | [] => none

/-- Comma-separated array elements up to `]`. -/
def parseElems : Nat → List Char → Option (List Json × List Char)
  | 0, _ => none
  | fuel + 1, cs =>
    match parseValue fuel cs with
    | none => none
    | some (v, rest) =>
      match skipWs rest with
      | ',' :: rest' =>
        match parseElems fuel rest' with
        | some (xs, rem) => some (v :: xs, rem)
        | none => none
      | ']' :: rem => some ([v], rem)
      | _ => none

/-- Comma-separated `"key": value` fields up to the closing brace. -/
def parseFields : Nat → List Char → Option (List (String × Json) × List Char)
  | 0, _ => none
  | fuel + 1, cs =>
    match skipWs cs with
    | '"' :: rest =>
      match parseStringBody rest with
      | none => none
      | some (key, rest') =>
        match skipWs rest' with
        | ':' :: rest'' =>
          match parseValue fuel rest'' with
          | none => none
          | some (v, rest''') =>
            match skipWs rest''' with
            | ',' :: more =>
              match parseFields fuel more with
              | some (fs, rem) => some ((String.mk key, v) :: fs, rem)
              | none => none
            | '\x7d' :: rem => some ([(String.mk key, v)], rem)
            | _ => none
        | _ => none
    | _ => none

end

/-- `JSON.parse` on a whole string: one value and nothing but trailing
whitespace; `none` models the thrown `SyntaxError`. -/
def jsonParse (s : String) : Option Json :=
  match parseValue (2 * s.length + 2) s.data with
  | some (v, rest) => if skipWs rest = [] then some v else none
  | none => none

/-! ## Authentication flow (`AuthContext.tsx`) -/

/-- `users` table row as read by the login query. -/
structure UsersRow where
  id : Nat
  email : String
  password_hash : String
  first_name : String
  last_name : String
  phone : Option String
  is_active : Bool
deriving Repr, DecidableEq

/-- The remote store as seen by `login`'s first query. -/
structure AuthDb where
  users : List UsersRow
deriving Repr

/-- An `activity_logs` insert issued by the auth flow. -/
structure ActivityEntry where
  user_id : Nat
  action : String
  resource_type : String
  details : Option String
deriving Repr, DecidableEq

/-- Session state owned by `AuthProvider`: the React `user` state, the
record held under the fixed `localStorage` key `'user'` (serialization by
`JSON.stringify` is a delegated external; the record is carried directly),
and the `activity_logs` rows inserted so far. -/
structure AuthState where
  user : Option SessionUser
  storage : Option SessionUser
  logs : List ActivityEntry
deriving Repr, DecidableEq

/-- `supabase.from('users').select('*').eq('email', email)
.eq('is_active', true).single()`: exactly one matching row, else the
query errors. -/
def findAuthUser (db : AuthDb) (email : String) : Option UsersRow :=
  match db.users.filter (fun u => u.email == email && u.is_active) with
  | [u] => some u
  | _ => none

/-- The session `User` record constructed by `login`. -/
def mkSessionUser (u : UsersRow) (roles : List UserRole) : SessionUser :=
  { id := u.id
    email := u.email
    first_name := u.first_name
    last_name := u.last_name
    phone := u.phone
    is_active := u.is_active
    roles := roles }

/-- The `login` function of `AuthContext.tsx`.  `verify` is the delegated
`bcrypt.compare` primitive; `fetchRoles` is the `user_roles` join query
(its `Except.error` case is the transport-level `rolesError`).  A thrown
`Error` is the `Except.error` carrying its message; the state is only
replaced on success. -/
def login (verify : String → String → Bool)
    (fetchRoles : Nat → Except String (List UserRole))
    (db : AuthDb) (email password : String) (st : AuthState) :
    Except String AuthState :=
  match findAuthUser db email with
  | none => .error "Invalid email or password"
  | some u =>
    if verify password u.password_hash then
      match fetchRoles u.id with
      | .error _ => .error "Failed to fetch user roles"
      | .ok roles =>
        let su := mkSessionUser u roles
        .ok { user := some su
              storage := some su
              logs := st.logs ++
                [{ user_id := su.id
                   action := "login"
                   resource_type := "auth"
                   details := some email }] }
    else .error "Invalid email or password"

/-- Observable session state after a login attempt: a thrown error leaves
the provider state untouched. -/
def runLogin (verify : String → String → Bool)
    (fetchRoles : Nat → Except String (List UserRole))
    (db : AuthDb) (email password : String) (st : AuthState) : AuthState :=
  match login verify fetchRoles db email password st with
  | .ok st' => st'
  | .error _ => st

/-- The `logout` function of `AuthContext.tsx`: insert a `logout` activity
row when a user is present, then clear the React state and remove the
stored record.  No path throws. -/
def logout (st : AuthState) : Except String AuthState :=
  .ok { user := none
        storage := none
        logs := st.logs ++
          (match st.user with
           | some u =>
             [{ user_id := u.id
                action := "logout"
                resource_type := "auth"
                details := none }]
           | none => []) }

/-- The startup effect of `AuthProvider`: read `localStorage.getItem('user')`
and, when truthy, `setUser(JSON.parse(storedUser))` — with no `try`/`catch`
around the parse.  `Except.error` models the uncaught exception; the
result `Option Json` is the resulting `user` state (`Json.null` parses to
the JavaScript `null` user). -/
def restoreSession (stored : Option String) : Except String (Option Json) :=
  match stored with
  | none => .ok none
  | some s =>
    if s = "" then .ok none
    else
      match jsonParse s with
      | none => .error "JSON.parse: unexpected token"
      | some .null => .ok none
      | some v => .ok (some v)

/-! ## Row-level-security policies (SQL schema)

Embedding of the `FOR SELECT USING (...)` policies
`Users can view clients/proposals/sales in their scope`.  Each `EXISTS`
subquery over a join becomes a nested `List.any`; SQL `=` on nullable
columns is `nullEq` (a comparison with `NULL` is never satisfied). -/

/-- `roles` row. -/
structure RoleRow where
  id : Nat
  name : String
  level : Int
deriving Repr, DecidableEq

/-- `user_roles` row (all foreign keys nullable in the schema). -/
structure UserRoleRow where
  id : Nat
  user_id : Option Nat
  role_id : Option Nat
  company_id : Option Nat
  site_id : Option Nat
  is_active : Bool
deriving Repr, DecidableEq

/-- `clients` row (scoping columns only). -/
structure ClientRow where
  id : Nat
  company_id : Option Nat
  site_id : Option Nat
  assigned_to : Option Nat
deriving Repr, DecidableEq

/-- `proposals` row (scoping columns only). -/
structure ProposalRow where
  id : Nat
  client_id : Option Nat
  created_by : Option Nat
deriving Repr, DecidableEq

/-- `sales` row (scoping columns only). -/
structure SaleRow where
  id : Nat
  proposal_id : Option Nat
  closed_by : Option Nat
deriving Repr, DecidableEq

/-- The tables consulted by the three policies. -/
structure Db where
  roles : List RoleRow
  user_roles : List UserRoleRow
  clients : List ClientRow
  proposals : List ProposalRow
  sales : List SaleRow
deriving Repr

/-- SQL `=` on nullable columns: a `NULL` operand yields not-satisfied. -/
def nullEq : Option Nat → Option Nat → Bool
  | some a, some b => a == b
  | _, _ => false

/-- `JOIN roles r ON ur.role_id = r.id` with `r.name = name`. -/
def roleNameIs (db : Db) (ur : UserRoleRow) (name : String) : Bool :=
  db.roles.any (fun r => nullEq ur.role_id (some r.id) && r.name == name)

/-- The recurring super-admin `EXISTS` subquery of every policy. -/
def isSuperAdmin (db : Db) (uid : Nat) : Bool :=
  db.user_roles.any (fun ur =>
    nullEq ur.user_id (some uid) && ur.is_active &&
      roleNameIs db ur "Super Admin")

/-- Policy `Users can view clients in their scope`: super admin, or a
`Company Admin` assignment on the client's company, or any active
assignment on the client's site, or the client is assigned to the
caller. -/
def clientVisible (db : Db) (uid : Nat) (c : ClientRow) : Bool :=
  isSuperAdmin db uid
  || db.user_roles.any (fun ur =>
       nullEq ur.user_id (some uid) && ur.is_active &&
         (roleNameIs db ur "Company Admin" &&
           nullEq ur.company_id c.company_id))
  || db.user_roles.any (fun ur =>
       nullEq ur.user_id (some uid) && ur.is_active &&
         nullEq ur.site_id c.site_id)
  || nullEq c.assigned_to (some uid)

/-- Policy `Users can view proposals in their scope`, joining
`clients c ON c.id = proposals.client_id`. -/
def proposalVisible (db : Db) (uid : Nat) (p : ProposalRow) : Bool :=
  isSuperAdmin db uid
  || db.user_roles.any (fun ur =>
       nullEq ur.user_id (some uid) && ur.is_active &&
         (roleNameIs db ur "Company Admin" &&
           db.clients.any (fun c =>
             nullEq p.client_id (some c.id) &&
               nullEq ur.company_id c.company_id)))
  || db.user_roles.any (fun ur =>
       nullEq ur.user_id (some uid) && ur.is_active &&
         db.clients.any (fun c =>
           nullEq p.client_id (some c.id) && nullEq ur.site_id c.site_id))
  || nullEq p.created_by (some uid)

/-- Policy `Users can view sales in their scope`, joining
`proposals p ON p.id = sales.proposal_id` and
`clients c ON c.id = p.client_id`. -/
def saleVisible (db : Db) (uid : Nat) (s : SaleRow) : Bool :=
  isSuperAdmin db uid
  || db.user_roles.any (fun ur =>
       nullEq ur.user_id (some uid) && ur.is_active &&
         (roleNameIs db ur "Company Admin" &&
           db.proposals.any (fun p =>
             nullEq s.proposal_id (some p.id) &&
               db.clients.any (fun c =>
                 nullEq p.client_id (some c.id) &&
                   nullEq ur.company_id c.company_id))))
  || db.user_roles.any (fun ur =>
       nullEq ur.user_id (some uid) && ur.is_active &&
         db.proposals.any (fun p =>
           nullEq s.proposal_id (some p.id) &&
             db.clients.any (fun c =>
               nullEq p.client_id (some c.id) &&
                 nullEq ur.site_id c.site_id)))
  || nullEq s.closed_by (some uid)

/-! ## Scope Resolver and spec-level visibility (spec sections 4.1-4.2) -/

/-- Visibility boundary of spec section 4.1. -/
inductive Boundary where
  | global
  | companyScoped (companyId : Nat)
  | siteScoped (siteId : Nat)
  | selfScoped (userId : Nat)
deriving Repr, DecidableEq

/-- The caller's active assignments consulted by the policies. -/
def activeAssignments (db : Db) (uid : Nat) : List UserRoleRow :=
  db.user_roles.filter (fun ur =>
    nullEq ur.user_id (some uid) && ur.is_active)

/-- The role level joined to an assignment. -/
def assignmentLevel (db : Db) (ur : UserRoleRow) : Option Int :=
  (db.roles.find? (fun r => nullEq ur.role_id (some r.id))).map
    (fun r => r.level)

/-- Modelled from the spec: section 4.1 Scope Resolver (the client mirrors
it per dashboard; no single source function exists).  The primary
assignment is the numeric-minimum level (first on a tie); level 1 maps to
`Global`, 2 to `CompanyScoped`, 3 to `SiteScoped`, level 4 or no
assignment to `SelfScoped`. -/
def resolveBoundary (db : Db) (uid : Nat) : Boundary :=
  match activeAssignments db uid with
  | [] => .selfScoped uid
  | a :: rest =>
    let prim := rest.foldl (fun best cur =>
      if (assignmentLevel db cur).getD 4 < (assignmentLevel db best).getD 4
      then cur else best) a
    let lvl := (assignmentLevel db prim).getD 4
    if lvl = 1 then .global
    else if lvl = 2 then
      match prim.company_id with
      | some cid => .companyScoped cid
      | none => .selfScoped uid
    else if lvl = 3 then
      match prim.site_id with
      | some sid => .siteScoped sid
      | none => .selfScoped uid
    else .selfScoped uid

/-- Modelled from the spec: sections 4.2 and 8 — a client is visible under
a boundary iff its company/site/assignee matches the scope, or the
boundary is `Global`. -/
def specClientVisible (b : Boundary) (c : ClientRow) : Bool :=
  match b with
  | .global => true
  | .companyScoped cid => c.company_id == some cid
  | .siteScoped sid => c.site_id == some sid
  | .selfScoped uid => c.assigned_to == some uid

/-- Modelled from the spec: proposal visibility through the
`Proposal → Client → Company/Site` chain; `SelfScoped` sees only authored
proposals. -/
def specProposalVisible (db : Db) (b : Boundary) (p : ProposalRow) : Bool :=
  match b with
  | .global => true
  | .companyScoped cid =>
    db.clients.any (fun c =>
      p.client_id == some c.id && c.company_id == some cid)
  | .siteScoped sid =>
    db.clients.any (fun c =>
      p.client_id == some c.id && c.site_id == some sid)
  | .selfScoped uid => p.created_by == some uid

/-- Modelled from the spec: sale visibility through the
`Sale → Proposal → Client → Company/Site` chain; `SelfScoped` sees only
sales the caller closed. -/
def specSaleVisible (db : Db) (b : Boundary) (s : SaleRow) : Bool :=
  match b with
  | .global => true
  | .companyScoped cid =>
    db.proposals.any (fun p =>
      s.proposal_id == some p.id &&
        db.clients.any (fun c =>
          p.client_id == some c.id && c.company_id == some cid))
  | .siteScoped sid =>
    db.proposals.any (fun p =>
      s.proposal_id == some p.id &&
        db.clients.any (fun c =>
          p.client_id == some c.id && c.site_id == some sid))
  | .selfScoped uid => s.closed_by == some uid

/-! ## Amended visibility characterization

What the policies actually grant: a union over the caller's active
assignments — a `Super Admin` assignment grants everything, a
`Company Admin` assignment grants its company's rows, and ANY active
assignment grants its site's rows (the site arm of each policy checks no
role name) — plus every row that references the caller directly. -/

/-- Per-assignment grant for a client row. -/
def grantsClient (db : Db) (ur : UserRoleRow) (c : ClientRow) : Bool :=
  roleNameIs db ur "Super Admin"
  || (roleNameIs db ur "Company Admin" && nullEq ur.company_id c.company_id)
  || nullEq ur.site_id c.site_id

/-- Per-assignment grant for a proposal row (through its client). -/
def grantsProposal (db : Db) (ur : UserRoleRow) (p : ProposalRow) : Bool :=
  roleNameIs db ur "Super Admin"
  || (roleNameIs db ur "Company Admin" &&
      db.clients.any (fun c =>
        nullEq p.client_id (some c.id) && nullEq ur.company_id c.company_id))
  || db.clients.any (fun c =>
      nullEq p.client_id (some c.id) && nullEq ur.site_id c.site_id)

/-- Per-assignment grant for a sale row (through proposal and client). -/
def grantsSale (db : Db) (ur : UserRoleRow) (s : SaleRow) : Bool :=
  roleNameIs db ur "Super Admin"
  || (roleNameIs db ur "Company Admin" &&
      db.proposals.any (fun p =>
        nullEq s.proposal_id (some p.id) &&
          db.clients.any (fun c =>
            nullEq p.client_id (some c.id) &&
              nullEq ur.company_id c.company_id)))
  || db.proposals.any (fun p =>
      nullEq s.proposal_id (some p.id) &&
        db.clients.any (fun c =>
          nullEq p.client_id (some c.id) && nullEq ur.site_id c.site_id))

/-- Amended client visibility: union of per-assignment grants plus direct
assignment to the caller. -/
def amendedClientVisible (db : Db) (uid : Nat) (c : ClientRow) : Bool :=
  (activeAssignments db uid).any (fun ur => grantsClient db ur c)
  || nullEq c.assigned_to (some uid)

/-- Amended proposal visibility: union of per-assignment grants plus
authorship. -/
def amendedProposalVisible (db : Db) (uid : Nat) (p : ProposalRow) : Bool :=
  (activeAssignments db uid).any (fun ur => grantsProposal db ur p)
  || nullEq p.created_by (some uid)

/-- Amended sale visibility: union of per-assignment grants plus having
closed the sale. -/
def amendedSaleVisible (db : Db) (uid : Nat) (s : SaleRow) : Bool :=
  (activeAssignments db uid).any (fun ur => grantsSale db ur s)
  || nullEq s.closed_by (some uid)

/-- Store for the C1 counterexample: user 1 holds one active `Commercial`
(level 4) assignment at company 100 / site 200; client 50 sits at that
site but is assigned to user 2. -/
def counterDb : Db :=
  { roles := [{ id := 10, name := "Commercial", level := 4 }]
    user_roles := [{ id := 1, user_id := some 1, role_id := some 10,
                     company_id := some 100, site_id := some 200,
                     is_active := true }]
    clients := [{ id := 50, company_id := some 100, site_id := some 200,
                  assigned_to := some 2 }]
    proposals := []
    sales := [] }

/-- The contested client row. -/
def counterClient : ClientRow :=
  { id := 50, company_id := some 100, site_id := some 200,
    assigned_to := some 2 }

/-- Scenario store of spec section 8: roles 1-4; site manager (user 3) at
company 1 / site 1; company-2 admin (user 22); commercial (user 4) at
company 1 / site 1 with client 70 assigned to them and proposal 80
authored by them. -/
def scenarioDb : Db :=
  { roles := [{ id := 1, name := "Super Admin", level := 1 },
              { id := 2, name := "Company Admin", level := 2 },
              { id := 3, name := "Site Manager", level := 3 },
              { id := 4, name := "Commercial", level := 4 }]
    user_roles := [{ id := 1, user_id := some 3, role_id := some 3,
                     company_id := some 1, site_id := some 1,
                     is_active := true },
                   { id := 2, user_id := some 22, role_id := some 2,
                     company_id := some 2, site_id := none,
                     is_active := true },
                   { id := 3, user_id := some 4, role_id := some 4,
                     company_id := some 1, site_id := some 1,
                     is_active := true }]
    clients := [{ id := 70, company_id := some 1, site_id := some 1,
                  assigned_to := some 4 }]
    proposals := [{ id := 80, client_id := some 70, created_by := some 4 }]
    sales := [] }

/-- Proposal P of the scenario. -/
def scenarioProposal : ProposalRow :=
  { id := 80, client_id := some 70, created_by := some 4 }

/-! ## Sample data for witnesses and counterexamples -/

/-- Sample assignments: two `Commercial` level-4 assignments tied for the
minimum. -/
def tieRoleA : UserRole :=
  { id := 1
    role := { id := 10, name := "Commercial", description := none, level := 4 }
    company := none
    site := none
    is_active := true }

def tieRoleB : UserRole :=
  { id := 2
    role := { id := 10, name := "Commercial", description := none, level := 4 }
    company := none
    site := none
    is_active := true }

/-- Sample session user with zero assignments. -/
def noRoleUser : SessionUser :=
  { id := 7
    email := "norole@example.com"
    first_name := "No"
    last_name := "Role"
    phone := none
    is_active := true
    roles := [] }

/-- Sample assignment with an unrecognized role name. -/
def internRole : UserRole :=
  { id := 3
    role := { id := 11, name := "Intern", description := none, level := 9 }
    company := none
    site := none
    is_active := true }

/-- A password verifier that always rejects (a hash matching nothing). -/
def exVerifyFalse : String → String → Bool := fun _ _ => false

/-- A role query that succeeds with no rows. -/
def exFetchRolesOk : Nat → Except String (List UserRole) := fun _ => .ok []

/-- A known active user row. -/
def exUserRow : UsersRow :=
  { id := 5
    email := "known@example.com"
    password_hash := "storedhash"
    first_name := "Known"
    last_name := "User"
    phone := none
    is_active := true }

/-- Store with no users. -/
def emptyAuthDb : AuthDb := { users := [] }

/-- Store with the one known user. -/
def exAuthDb : AuthDb := { users := [exUserRow] }

/-- Fresh logged-out provider state. -/
def exState : AuthState := { user := none, storage := none, logs := [] }

/-- A password verifier that always accepts. -/
def exVerifyTrue : String → String → Bool := fun _ _ => true

/-- A role query failing at the transport level. -/
def exFetchRolesFail : Nat → Except String (List UserRole) :=
  fun _ => .error "network unreachable"

/-! ## Claim theorems: primary-role resolution and dashboard rendering -/

theorem minLevel_le_init (a : Int) (l : List UserRole) : minLevel a l ≤ a := by
  induction l generalizing a with
  | nil => simp [minLevel]
  | cons x xs ih =>
    have h := ih (min a x.role.level)
    calc minLevel a (x :: xs) = minLevel (min a x.role.level) xs := rfl
      _ ≤ min a x.role.level := h
      _ ≤ a := min_le_left _ _

theorem minLevel_le_mem (a : Int) (l : List UserRole) (x : UserRole)
    (hx : x ∈ l) : minLevel a l ≤ x.role.level := by
  induction l generalizing a with
  | nil => cases hx
  | cons y ys ih =>
    rcases List.mem_cons.mp hx with h | h
    · subst h
      calc minLevel a (x :: ys) = minLevel (min a x.role.level) ys := rfl
        _ ≤ min a x.role.level := minLevel_le_init _ _
        _ ≤ x.role.level := min_le_right _ _
    · exact ih (min a y.role.level) h

theorem primaryAux_mem (a : UserRole) (l : List UserRole) :
    primaryAux a l = a ∨ primaryAux a l ∈ l := by
  induction l generalizing a with
  | nil => left; rfl
  | cons x xs ih =>
    have h := ih (primaryStep a x)
    rcases h with h | h
    · rw [primaryAux, List.foldl_cons] at *
      rw [h]
      unfold primaryStep
      by_cases hc : x.role.level < a.role.level
      · right; simp [hc]
      · left; simp [hc]
    · right
      rw [primaryAux, List.foldl_cons]
      exact List.mem_cons_of_mem _ h

theorem primaryAux_level (a : UserRole) (l : List UserRole) :
    (primaryAux a l).role.level = minLevel a.role.level l := by
  induction l generalizing a with
  | nil => rfl
  | cons x xs ih =>
    rw [primaryAux, List.foldl_cons, minLevel, List.foldl_cons]
    have h := ih (primaryStep a x)
    rw [primaryAux] at h
    rw [h]
    unfold primaryStep
    by_cases hc : x.role.level < a.role.level
    · simp only [if_pos hc]
      congr 1
      omega
    · simp only [if_neg hc]
      congr 1
      omega

/-- The fold returns the first element (accumulator first) attaining the
minimum level. -/
theorem primaryAux_first_min (l : List UserRole) (a : UserRole) :
    (a :: l).find? (fun x => x.role.level = minLevel a.role.level l) =
      some (primaryAux a l) := by
  induction l generalizing a with
  | nil =>
    simp [minLevel, primaryAux, List.find?]
  | cons x xs ih =>
    by_cases hc : x.role.level < a.role.level
    · have hx : primaryStep a x = x := by unfold primaryStep; simp [hc]
      have hstep : primaryAux a (x :: xs) = primaryAux x xs := by
        rw [primaryAux, List.foldl_cons, hx]; rfl
      have hM : minLevel a.role.level (x :: xs) = minLevel x.role.level xs := by
        rw [minLevel, List.foldl_cons]
        have : min a.role.level x.role.level = x.role.level := by omega
        rw [this]; rfl
      have ha : ¬ (a.role.level = minLevel x.role.level xs) := by
        have h1 : minLevel x.role.level xs ≤ x.role.level :=
          minLevel_le_init _ _
        omega
      rw [hstep, hM, List.find?_cons_of_neg _ (by simpa using ha)]
      exact ih x
    · have hx : primaryStep a x = a := by unfold primaryStep; simp [hc]
      have hstep : primaryAux a (x :: xs) = primaryAux a xs := by
        rw [primaryAux, List.foldl_cons, hx]; rfl
      have hM : minLevel a.role.level (x :: xs) = minLevel a.role.level xs := by
        rw [minLevel, List.foldl_cons]
        have : min a.role.level x.role.level = a.role.level := by omega
        rw [this]; rfl
      rw [hstep, hM]
      have hih := ih a
      by_cases hm : a.role.level = minLevel a.role.level xs
      · rw [List.find?_cons_of_pos _ (by simpa using hm)] at hih
        rw [List.find?_cons_of_pos _ (by simpa using hm)]
        exact hih
      · have hax : ¬ x.role.level = minLevel a.role.level xs := by
          have h1 : minLevel a.role.level xs ≤ a.role.level :=
            minLevel_le_init _ _
          omega
        rw [List.find?_cons_of_neg _ (by simpa using hm),
          List.find?_cons_of_neg _ (by simpa using hax)]
        rw [List.find?_cons_of_neg _ (by simpa using hm)] at hih
        exact hih

/-- C2: for a user with a non-empty list of active assignments, the
primary assignment resolved by the dashboard is an element of the list,
and its role `level` is the numeric minimum of the levels of all
assignments in the list. -/
theorem primaryRole_is_min (r : UserRole) (rs : List UserRole) :
    primaryRole r rs ∈ r :: rs ∧
      ∀ x ∈ r :: rs, (primaryRole r rs).role.level ≤ x.role.level := by
  constructor
  · rcases primaryAux_mem r rs with h | h
    · rw [primaryRole, h]; exact List.mem_cons_self _ _
    · exact List.mem_cons_of_mem _ h
  · intro x hx
    rw [primaryRole, primaryAux_level]
    rcases List.mem_cons.mp hx with h | h
    · subst h; exact minLevel_le_init _ _
    · exact minLevel_le_mem _ _ _ h

/-- C8: when several assignments share the minimum level, the resolved
primary assignment is the first one in collection order attaining the
minimum (the `reduce` keeps the accumulator on a tie). -/
theorem primaryRole_first_on_tie (r : UserRole) (rs : List UserRole)
    (h : 2 ≤ ((r :: rs).filter
      (fun x => x.role.level = minLevel r.role.level rs)).length) :
    (r :: rs).find? (fun x => x.role.level = minLevel r.role.level rs) =
      some (primaryRole r rs) :=
  primaryAux_first_min rs r

/-- Witness for C8: two level-4 assignments tie; the first is resolved. -/
theorem primaryRole_first_on_tie_witness :
    2 ≤ ((tieRoleA :: [tieRoleB]).filter
      (fun x => x.role.level = minLevel tieRoleA.role.level [tieRoleB])).length ∧
    (tieRoleA :: [tieRoleB]).find?
      (fun x => x.role.level = minLevel tieRoleA.role.level [tieRoleB]) =
        some (primaryRole tieRoleA [tieRoleB]) :=
  ⟨by decide, primaryRole_first_on_tie tieRoleA [tieRoleB] (by decide)⟩

/-- C4: a user with zero active assignments renders the `No Role Assigned`
screen (not an error page) and no scoped data query is issued. -/
theorem dashboard_no_roles_short_circuits (u : SessionUser)
    (h : u.roles = []) :
    dashboard (some u) = .noRoleAssigned ∧ dashboardQueries (some u) = [] := by
  constructor
  · rw [dashboard, h]
  · rw [dashboardQueries, dashboard, h]

/-- Witness for C4 at a concrete assignment-free user. -/
theorem dashboard_no_roles_short_circuits_witness :
    noRoleUser.roles = [] ∧
      (dashboard (some noRoleUser) = .noRoleAssigned ∧
        dashboardQueries (some noRoleUser) = []) :=
  ⟨rfl, dashboard_no_roles_short_circuits noRoleUser rfl⟩

/-- C9: a primary role whose name is none of the four known role names
falls through to the explicit `Unknown Role` view, selecting no
role-scoped dashboard. -/
theorem renderDashboard_unknown_fails_closed (p : UserRole)
    (h : p.role.name ∉
      ["Super Admin", "Company Admin", "Site Manager", "Commercial"]) :
    renderDashboard p = .unknownRole p.role.name := by
  simp only [List.mem_cons, List.not_mem_nil, or_false, not_or] at h
  obtain ⟨h1, h2, h3, h4⟩ := h
  rw [renderDashboard, if_neg h1, if_neg h2, if_neg h3, if_neg h4]

/-- Witness for C9 at a concrete unrecognized role name. -/
theorem renderDashboard_unknown_fails_closed_witness :
    internRole.role.name ∉
        ["Super Admin", "Company Admin", "Site Manager", "Commercial"] ∧
      renderDashboard internRole = .unknownRole internRole.role.name :=
  ⟨by decide, renderDashboard_unknown_fails_closed internRole (by decide)⟩

/-- C10: `useAuth` outside an `AuthProvider` throws rather than returning
an unauthenticated value; inside a provider it returns the context value. -/
theorem useAuth_requires_provider :
    useAuth none = .error "useAuth must be used within an AuthProvider" ∧
      ∀ c : AuthContextType, useAuth (some c) = .ok c :=
  ⟨rfl, fun _ => rfl⟩

/-! ## Claim theorems: authentication flow -/

/-- C3: an unknown/inactive-email failure and a wrong-password failure
produce literally the same thrown error, so the caller cannot tell which
check failed. -/
theorem login_uniform_invalid_credentials
    (v₁ v₂ : String → String → Bool)
    (f₁ f₂ : Nat → Except String (List UserRole))
    (db₁ db₂ : AuthDb) (e₁ p₁ e₂ p₂ : String) (st₁ st₂ : AuthState)
    (u : UsersRow)
    (h₁ : findAuthUser db₁ e₁ = none)
    (h₂ : findAuthUser db₂ e₂ = some u)
    (h₃ : v₂ p₂ u.password_hash = false) :
    login v₁ f₁ db₁ e₁ p₁ st₁ = .error "Invalid email or password" ∧
    login v₂ f₂ db₂ e₂ p₂ st₂ = .error "Invalid email or password" ∧
    login v₁ f₁ db₁ e₁ p₁ st₁ = login v₂ f₂ db₂ e₂ p₂ st₂ := by
  have hA : login v₁ f₁ db₁ e₁ p₁ st₁ = .error "Invalid email or password" := by
    unfold login
    rw [h₁]
  have hB : login v₂ f₂ db₂ e₂ p₂ st₂ = .error "Invalid email or password" := by
    unfold login
    rw [h₂]
    simp [h₃]
  exact ⟨hA, hB, hA.trans hB.symm⟩

/-- Witness for C3: a concrete unknown-email attempt and a concrete
wrong-password attempt fail identically. -/
theorem login_uniform_invalid_credentials_witness :
    (findAuthUser emptyAuthDb "unknown@example.com" = none ∧
      findAuthUser exAuthDb "known@example.com" = some exUserRow ∧
      exVerifyFalse "wrongpw" exUserRow.password_hash = false) ∧
    (login exVerifyFalse exFetchRolesOk emptyAuthDb "unknown@example.com"
        "pw" exState = .error "Invalid email or password" ∧
      login exVerifyFalse exFetchRolesOk exAuthDb "known@example.com"
        "wrongpw" exState = .error "Invalid email or password" ∧
      login exVerifyFalse exFetchRolesOk emptyAuthDb "unknown@example.com"
          "pw" exState =
        login exVerifyFalse exFetchRolesOk exAuthDb "known@example.com"
          "wrongpw" exState) :=
  ⟨⟨rfl, rfl, rfl⟩,
    login_uniform_invalid_credentials exVerifyFalse exVerifyFalse
      exFetchRolesOk exFetchRolesOk emptyAuthDb exAuthDb
      "unknown@example.com" "pw" "known@example.com" "wrongpw"
      exState exState exUserRow rfl rfl rfl⟩

/-- C5: if password verification succeeds but the role-join query fails,
login aborts with the surfaced role-fetch error and the session state is
unchanged (no session user set, nothing written to the stored record). -/
theorem login_role_fetch_failure_aborts
    (v : String → String → Bool)
    (f : Nat → Except String (List UserRole))
    (db : AuthDb) (e p : String) (st : AuthState) (u : UsersRow)
    (err : String)
    (h₁ : findAuthUser db e = some u)
    (h₂ : v p u.password_hash = true)
    (h₃ : f u.id = .error err) :
    login v f db e p st = .error "Failed to fetch user roles" ∧
    runLogin v f db e p st = st := by
  have hA : login v f db e p st = .error "Failed to fetch user roles" := by
    unfold login
    rw [h₁]
    simp [h₂, h₃]
  refine ⟨hA, ?_⟩
  unfold runLogin
  rw [hA]

/-- Witness for C5: concrete verified login whose role query fails. -/
theorem login_role_fetch_failure_aborts_witness :
    (findAuthUser exAuthDb "known@example.com" = some exUserRow ∧
      exVerifyTrue "password123" exUserRow.password_hash = true ∧
      exFetchRolesFail exUserRow.id = .error "network unreachable") ∧
    (login exVerifyTrue exFetchRolesFail exAuthDb "known@example.com"
        "password123" exState = .error "Failed to fetch user roles" ∧
      runLogin exVerifyTrue exFetchRolesFail exAuthDb "known@example.com"
        "password123" exState = exState) :=
  ⟨⟨rfl, rfl, rfl⟩,
    login_role_fetch_failure_aborts exVerifyTrue exFetchRolesFail exAuthDb
      "known@example.com" "password123" exState exUserRow
      "network unreachable" rfl rfl rfl⟩

/-- C6 counterexample: a present malformed record makes the startup
restore raise the parse exception instead of the claimed clean logged-out
state. -/
theorem restore_malformed_counterexample :
    restoreSession (some "\x7b") = .error "JSON.parse: unexpected token" ∧
    restoreSession (some "\x7b") ≠ .ok none := by
  refine ⟨rfl, ?_⟩
  intro h
  rw [show restoreSession (some "\x7b") =
    .error "JSON.parse: unexpected token" from rfl] at h
  exact Except.noConfusion h

/-- C6 amended: an absent (or empty) record yields logged-out; a present
record parsing to a JSON value yields the authenticated state holding the
parsed value; present malformed content raises the uncaught parse
exception rather than a logged-out state. -/
theorem restoreSession_amended :
    restoreSession none = .ok none ∧
    (∀ (s : String) (v : Json), s ≠ "" → jsonParse s = some v →
      v ≠ .null → restoreSession (some s) = .ok (some v)) ∧
    (∀ s : String, s ≠ "" → jsonParse s = none →
      restoreSession (some s) = .error "JSON.parse: unexpected token") := by
  refine ⟨rfl, ?_, ?_⟩
  · intro s v hs hp hv
    cases v with
    | null => exact absurd rfl hv
    | bool b => simp only [restoreSession, if_neg hs, hp]
    | num n => simp only [restoreSession, if_neg hs, hp]
    | str t => simp only [restoreSession, if_neg hs, hp]
    | arr xs => simp only [restoreSession, if_neg hs, hp]
    | obj fs => simp only [restoreSession, if_neg hs, hp]
  · intro s hs hp
    simp only [restoreSession, if_neg hs, hp]

/-- Witness for C6 amended: a concrete well-formed record restores the
session; a concrete malformed record raises the parse exception. -/
theorem restoreSession_amended_witness :
    restoreSession (some "\"x\"") = .ok (some (.str "x")) ∧
    restoreSession (some "[") = .error "JSON.parse: unexpected token" :=
  ⟨restoreSession_amended.2.1 "\"x\"" (.str "x") (by decide) rfl
      (fun h => Json.noConfusion h),
    restoreSession_amended.2.2 "[" (by decide) rfl⟩

/-- C7: logout is idempotent at the session state — both invocations
succeed without error and leave the session cleared (no user, no stored
record). -/
theorem logout_idempotent (st : AuthState) :
    ∃ st₁ st₂, logout st = .ok st₁ ∧ logout st₁ = .ok st₂ ∧
      st₁.user = none ∧ st₁.storage = none ∧
      st₂.user = none ∧ st₂.storage = none :=
  ⟨_, _, rfl, rfl, rfl, rfl, rfl, rfl⟩

/-! ## Claim theorems: row-level-security visibility -/

theorem any_filter_eq {α : Type} (l : List α) (p q : α → Bool) :
    (l.filter p).any q = l.any (fun a => p a && q a) := by
  induction l with
  | nil => rfl
  | cons x xs ih =>
    by_cases h : p x = true
    · rw [List.filter_cons_of_pos h, List.any_cons, List.any_cons, ih, h]
      simp
    · rw [List.filter_cons_of_neg h, List.any_cons, ih]
      simp at h
      simp [h]

theorem any_or_split {α : Type} (l : List α) (f g : α → Bool) :
    l.any (fun a => f a || g a) = (l.any f || l.any g) := by
  induction l with
  | nil => rfl
  | cons x xs ih =>
    rw [List.any_cons, List.any_cons, List.any_cons, ih]
    cases f x <;> cases g x <;> simp

/-- Splitting a policy: filtering the caller's active assignments and
testing a three-way grant equals the three policy `EXISTS` branches. -/
theorem any_active_distrib (l : List UserRoleRow)
    (u a f g k : UserRoleRow → Bool) :
    (l.filter (fun x => u x && a x)).any (fun x => f x || g x || k x) =
      (l.any (fun x => u x && a x && f x) ||
        (l.any (fun x => u x && a x && g x) ||
          l.any (fun x => u x && a x && k x))) := by
  rw [any_filter_eq]
  have hpt : (fun x => (u x && a x) && (f x || g x || k x)) =
      fun x => (u x && a x && f x) ||
        ((u x && a x && g x) || (u x && a x && k x)) := by
    funext x
    cases u x <;> cases a x <;> cases f x <;> cases g x <;> cases k x <;> rfl
  rw [hpt, any_or_split, any_or_split]

theorem clientVisible_eq_amended (db : Db) (uid : Nat) (c : ClientRow) :
    clientVisible db uid c = amendedClientVisible db uid c := by
  unfold clientVisible amendedClientVisible activeAssignments grantsClient
    isSuperAdmin
  rw [any_active_distrib db.user_roles
    (fun ur => nullEq ur.user_id (some uid)) (fun ur => ur.is_active)
    (fun ur => roleNameIs db ur "Super Admin")
    (fun ur => roleNameIs db ur "Company Admin" &&
      nullEq ur.company_id c.company_id)
    (fun ur => nullEq ur.site_id c.site_id)]
  simp only [Bool.or_assoc]

theorem proposalVisible_eq_amended (db : Db) (uid : Nat) (p : ProposalRow) :
    proposalVisible db uid p = amendedProposalVisible db uid p := by
  unfold proposalVisible amendedProposalVisible activeAssignments
    grantsProposal isSuperAdmin
  rw [any_active_distrib db.user_roles
    (fun ur => nullEq ur.user_id (some uid)) (fun ur => ur.is_active)
    (fun ur => roleNameIs db ur "Super Admin")
    (fun ur => roleNameIs db ur "Company Admin" &&
      db.clients.any (fun c =>
        nullEq p.client_id (some c.id) && nullEq ur.company_id c.company_id))
    (fun ur => db.clients.any (fun c =>
      nullEq p.client_id (some c.id) && nullEq ur.site_id c.site_id))]
  simp only [Bool.or_assoc]

theorem saleVisible_eq_amended (db : Db) (uid : Nat) (s : SaleRow) :
    saleVisible db uid s = amendedSaleVisible db uid s := by
  unfold saleVisible amendedSaleVisible activeAssignments grantsSale
    isSuperAdmin
  rw [any_active_distrib db.user_roles
    (fun ur => nullEq ur.user_id (some uid)) (fun ur => ur.is_active)
    (fun ur => roleNameIs db ur "Super Admin")
    (fun ur => roleNameIs db ur "Company Admin" &&
      db.proposals.any (fun p =>
        nullEq s.proposal_id (some p.id) &&
          db.clients.any (fun c =>
            nullEq p.client_id (some c.id) &&
              nullEq ur.company_id c.company_id)))
    (fun ur => db.proposals.any (fun p =>
      nullEq s.proposal_id (some p.id) &&
        db.clients.any (fun c =>
          nullEq p.client_id (some c.id) && nullEq ur.site_id c.site_id)))]
  simp only [Bool.or_assoc]

/-- C1 counterexample: user 1 resolves to `SelfScoped`, client 50 is
neither created by, assigned to, nor authored by them, yet the policy
makes it visible (the site arm checks no role name) — so visibility is
not equivalent to matching the resolved boundary. -/
theorem scope_policy_counterexample :
    resolveBoundary counterDb 1 = .selfScoped 1 ∧
    specClientVisible (.selfScoped 1) counterClient = false ∧
    clientVisible counterDb 1 counterClient = true := by
  refine ⟨?_, ?_, ?_⟩ <;> decide

/-- C1 amended: each policy grants exactly the union over the caller's
active assignments — a `Super Admin` assignment grants all rows, a
`Company Admin` assignment its company's rows, ANY active assignment its
site's rows — plus rows referencing the caller directly
(`assigned_to` / `created_by` / `closed_by`); in particular the section-8
scenario holds: the site-1 site manager sees proposal P while the
company-2 admin does not. -/
theorem scope_policy_characterization :
    (∀ (db : Db) (uid : Nat) (c : ClientRow),
      clientVisible db uid c = amendedClientVisible db uid c) ∧
    (∀ (db : Db) (uid : Nat) (p : ProposalRow),
      proposalVisible db uid p = amendedProposalVisible db uid p) ∧
    (∀ (db : Db) (uid : Nat) (s : SaleRow),
      saleVisible db uid s = amendedSaleVisible db uid s) ∧
    proposalVisible scenarioDb 3 scenarioProposal = true ∧
    proposalVisible scenarioDb 22 scenarioProposal = false :=
  ⟨clientVisible_eq_amended, proposalVisible_eq_amended,
    saleVisible_eq_amended, by decide, by decide⟩

end VoFullstuch
